import Mathlib

/-!
Shallow embedding of `src/drivers/oe_smartups.c` (NUT driver for the
OpenElectrons.com SmartUPS, I2C).  Pure decoding functions are embedded as
Lean functions; the stateful poll (`upsdrv_updateinfo`) and identity probe
(`smartups_read_ID`) are embedded as explicit state-passing functions over a
`DriverState`, with the I2C transaction results supplied as an environment
record.  Machine bytes are `Nat` taken mod 256; 16-bit words are assembled
with `|||` and `<<<` exactly as the C does (`lo | hi << 8`).  The C integer
division `100 * battery_capacity / battery_max_capacity` is undefined
behaviour when the divisor is zero; the model makes that case explicit by
aborting the poll with the `divByZero` signal at the division point.
-/

namespace OESmartups

/-! ## Protocol constants (from the `#define` block of the source) -/

def VENDOR_ID_OFFSET : Nat := 0x8
def DEVICE_ID_OFFSET : Nat := 0x10
def FIRMWARE_OFFSET : Nat := 0

def COMMAND_OFFSET : Nat := 0x41
def COMMAND_VALUE : Nat := 0x53
def RESTART_OPTION : Nat := 0x42
def BUTTON_STATE : Nat := 0x43
def RESTART_TIME : Nat := 0x44
def BATTERY_STATE : Nat := 0x46
def BATTERY_CURRENT : Nat := 0x48
def BATTERY_VOLTAGE : Nat := 0x4A
def BATTERY_CAPACITY : Nat := 0x4C
def BATTERY_TIME : Nat := 0x4E
def BATTERY_TEMPERATURE : Nat := 0x50
def BATTERY_HEALTH : Nat := 0x51
def OUTPUT_VOLTAGE : Nat := 0x52
def OUTPUT_CURRENT : Nat := 0x54
def BATTERY_MAX_CAPACITY : Nat := 0x56
def SECONDS : Nat := 0x58
def READ_OFFSET : Nat := RESTART_OPTION
def READ_LEN : Nat := SECONDS + 2 - RESTART_OPTION + 1

/-! ## Bytes and 16-bit little-endian words -/

/-- `buffer[i]` as an `unsigned char`: the raw cell value reduced mod 256. -/
def byteAt (buf : Nat → Nat) (i : Nat) : Nat := buf i % 256

/-- `buffer[off] | (buffer[off+1] << 8)` — the 16-bit little-endian field
extraction used for every word field of the telemetry block. -/
def read16 (buf : Nat → Nat) (off : Nat) : Nat :=
  byteAt buf off ||| (byteAt buf (off + 1) <<< 8)

/-- The C string held in a byte buffer after `dest[ret] = 0`: the received
bytes up to (not including) the first NUL, as characters. -/
def cstring (bs : List Nat) : String :=
  String.mk ((bs.takeWhile (fun b => b % 256 ≠ 0)).map (fun b => Char.ofNat (b % 256)))

/-! ## Published state (`dstate_setinfo` keys used by the driver) -/

/-- Status tokens passed to `status_set`: `"OL"`, `"OB"`, `"LB"` (from
`"OB LB"`), `"CHRG"` (from `"OL CHRG"`), `"FSD"`. -/
inductive Tag where
  | OL
  | OB
  | LB
  | CHRG
  | FSD
deriving DecidableEq

/-- The key/value data published through `dstate_setinfo` and
`status_set`/`status_commit`.  `none` = never set. -/
structure Info where
  mfr : Option String := none
  model : Option String := none
  firmware : Option String := none
  outputVoltageNominal : Option String := none
  batteryVoltageNominal : Option String := none
  batteryType : Option String := none
  delayShutdown : Option String := none
  batteryCurrent : Option String := none
  batteryVoltage : Option String := none
  batteryRuntime : Option Nat := none
  batteryTemperature : Option Nat := none
  batteryCharge : Option Nat := none
  upsTime : Option Nat := none
  upsContacts : Option Nat := none
  status : Option (List Tag) := none
deriving DecidableEq

/-- The driver's process-lifetime mutable state: the two module statics
`device_initialized` and `fsd_latch`, plus the published data. -/
structure DriverState where
  device_initialized : Bool
  fsd_latch : Bool
  info : Info
deriving DecidableEq

/-- Driver state at process start (statics zero, nothing published). -/
def initialState : DriverState :=
  { device_initialized := false, fsd_latch := false, info := {} }

/-! ## Identity probe (`smartups_read_ID`) -/

/-- Outcomes of the three `i2c_read_cstring` calls and of `select_slave`
during one invocation of `smartups_read_ID`.  `none` models a negative
return (I/O error); `some bs` models success with received bytes `bs`
(possibly fewer than the 8 requested — a short read). -/
structure ProbeEnv where
  selectOk : Bool
  vendor : Option (List Nat)
  model : Option (List Nat)
  firmware : Option (List Nat)

/-- How `smartups_read_ID` returned. -/
inductive IdResult where
  | fatalExit
  | aborted
  | ok
deriving DecidableEq

/-- The `strcmp(vendor, "Openelec")` branch of `smartups_read_ID`. -/
def normalizeVendor (v : String) : String :=
  if v = "Openelec" then "OpenElectrons.com" else v

/-- `smartups_read_ID(error_is_fatal)`: reads vendor, model and firmware
strings in order, publishing each as soon as it is read; on any read error
it either exits fatally or aborts with the state accumulated so far; only
on full success does it set the fixed nominal values, `device_initialized = 1`
and `fsd_latch = 0`.  `select_slave` exits fatally on failure regardless
of `error_is_fatal`. -/
def smartups_read_ID (errorIsFatal : Bool) (env : ProbeEnv) (st : DriverState) :
    IdResult × DriverState :=
  if ¬ env.selectOk then (IdResult.fatalExit, st)
  else
    match env.vendor with
    | none =>
      if errorIsFatal then (IdResult.fatalExit, st) else (IdResult.aborted, st)
    | some vbs =>
      let st1 : DriverState :=
        { st with info := { st.info with mfr := some (normalizeVendor (cstring vbs)) } }
      match env.model with
      | none =>
        if errorIsFatal then (IdResult.fatalExit, st1) else (IdResult.aborted, st1)
      | some mbs =>
        let st2 : DriverState :=
          { st1 with info := { st1.info with model := some (cstring mbs) } }
        match env.firmware with
        | none =>
          if errorIsFatal then (IdResult.fatalExit, st2) else (IdResult.aborted, st2)
        | some fbs =>
          let st3 : DriverState :=
            { st2 with info := { st2.info with
                firmware := some (cstring fbs),
                outputVoltageNominal := some "5.0",
                batteryVoltageNominal := some "4.5",
                batteryType := some "NiMH",
                delayShutdown := some "50" } }
          (IdResult.ok, { st3 with device_initialized := true, fsd_latch := false })

/-! ## Telemetry decoding (pure part of `upsdrv_updateinfo`) -/

/-- Sign/magnitude decode of the battery-current word: `sign = '+'`, and if
`tmp & (1<<15)` then `tmp = 65536 - tmp` with `sign = '-'`. -/
structure CurrentVal where
  sign : Char
  mag : Nat
deriving DecidableEq

def decodeCurrent (raw : Nat) : CurrentVal :=
  if raw &&& (1 <<< 15) ≠ 0 then { sign := '-', mag := 65536 - raw }
  else { sign := '+', mag := raw }

/-- `%03d`: three decimal digits, zero padded (applied to values < 1000). -/
def pad3 (n : Nat) : String :=
  if n < 10 then "00" ++ Nat.repr n
  else if n < 100 then "0" ++ Nat.repr n
  else Nat.repr n

/-- `"%c%d.%03d"` with `sign, tmp / 1000, tmp % 1000`. -/
def formatCurrent (c : CurrentVal) : String :=
  c.sign.toString ++ Nat.repr (c.mag / 1000) ++ "." ++ pad3 (c.mag % 1000)

/-- `"%d.%03d"` with `tmp / 1000, tmp % 1000` (battery voltage). -/
def formatVoltage (v : Nat) : String :=
  Nat.repr (v / 1000) ++ "." ++ pad3 (v % 1000)

/-- The word/byte fields the poll extracts from the telemetry block (the
ones round-tripped by the spec: current raw word, voltage, capacity,
runtime, temperature). -/
structure Telemetry where
  current : Nat
  voltage : Nat
  capacity : Nat
  runtime : Nat
  temperature : Nat
deriving DecidableEq

/-- Field extraction exactly as the poll does it: 16-bit little-endian
words at the fixed offsets, single byte for the temperature. -/
def decodeTelemetry (buf : Nat → Nat) : Telemetry :=
  { current := read16 buf BATTERY_CURRENT
    voltage := read16 buf BATTERY_VOLTAGE
    capacity := read16 buf BATTERY_CAPACITY
    runtime := read16 buf BATTERY_TIME
    temperature := byteAt buf BATTERY_TEMPERATURE }

/-- A synthetic telemetry block laying the field values out little-endian
(`low_byte | (high_byte << 8)`) at the fixed offsets (all other cells 0). -/
def encodeTelemetry (t : Telemetry) : Nat → Nat := fun i =>
  if i = BATTERY_CURRENT then t.current % 256
  else if i = BATTERY_CURRENT + 1 then t.current / 256
  else if i = BATTERY_VOLTAGE then t.voltage % 256
  else if i = BATTERY_VOLTAGE + 1 then t.voltage / 256
  else if i = BATTERY_CAPACITY then t.capacity % 256
  else if i = BATTERY_CAPACITY + 1 then t.capacity / 256
  else if i = BATTERY_TIME then t.runtime % 256
  else if i = BATTERY_TIME + 1 then t.runtime / 256
  else if i = BATTERY_TEMPERATURE then t.temperature % 256
  else 0

/-! ## Status state machine -/

/-- The `switch (buffer[BATTERY_STATE])` table: tags passed to
`status_set` for each device-state code; the default arm only logs. -/
def statusTags (code : Nat) : List Tag :=
  match code with
  | 0 => [Tag.OL]
  | 1 => [Tag.OL, Tag.CHRG]
  | 2 => [Tag.OL, Tag.CHRG]
  | 3 => [Tag.OL, Tag.CHRG]
  | 4 => [Tag.OL]
  | 5 => [Tag.OB]
  | 6 => [Tag.OB, Tag.LB]
  | 7 => [Tag.OB, Tag.LB]
  | _ => []

/-- The two latch updates of the poll, in source order: first
`buffer[BUTTON_STATE] ∈ {9, 0xa}` sets the latch, then
`buffer[BUTTON_STATE] ∈ {1, 2, 3}` clears it. -/
def latchStep (button : Nat) (latch : Bool) : Bool :=
  let l1 := if button = 9 ∨ button = 10 then true else latch
  if button = 1 ∨ button = 2 ∨ button = 3 then false else l1

/-! ## The poll (`upsdrv_updateinfo`) -/

/-- I/O outcomes of one poll: the result of the offset-select `write`, the
result of the block `read`, the buffer contents after the read, and the
probe outcomes in case the lazy identity probe runs. -/
structure PollEnv where
  probe : ProbeEnv
  writeRet : Int
  readRet : Int
  buffer : Nat → Nat

/-- How the poll ended: process exit inside the lazy probe
(`select_slave` failure), `dstate_datastale`, the undefined-behaviour
division by a zero `battery_max_capacity`, or `dstate_dataok`. -/
inductive PollSignal where
  | fatalExit
  | dataStale
  | divByZero
  | dataOk
deriving DecidableEq

/-- Lines 216–353 of the source: everything after a successful block read.
Decodes and publishes the fields in source order, updates the latch from
`buffer[BUTTON_STATE]`, runs the device-state switch on
`buffer[BATTERY_STATE]`, appends `FSD` if the latch is set, and ends with
`dstate_dataok`.  The charge division aborts the model at the
division-by-zero point (undefined behaviour in C), with the publications
made before that line already applied. -/
def pollBody (buf : Nat → Nat) (st : DriverState) : PollSignal × DriverState :=
  let t := decodeTelemetry buf
  let info1 : Info :=
    { st.info with
      batteryCurrent := some (formatCurrent (decodeCurrent t.current)),
      batteryVoltage := some (formatVoltage t.voltage),
      batteryRuntime := some t.runtime,
      batteryTemperature := some t.temperature }
  let battery_capacity := t.capacity
  let battery_max_capacity := read16 buf BATTERY_MAX_CAPACITY
  if battery_max_capacity = 0 then (PollSignal.divByZero, { st with info := info1 })
  else
    let charge := 100 * battery_capacity / battery_max_capacity
    let button := byteAt buf BUTTON_STATE
    let info2 : Info :=
      { info1 with
        batteryCharge := some charge,
        upsTime := some (read16 buf SECONDS),
        upsContacts := some (button &&& 3) }
    let latch := latchStep button st.fsd_latch
    let tags := statusTags (byteAt buf BATTERY_STATE) ++ (if latch then [Tag.FSD] else [])
    (PollSignal.dataOk,
      { st with fsd_latch := latch, info := { info2 with status := some tags } })

/-- Lines 191–193 of the source: the lazy identity probe, run only while
`device_initialized` is still 0. -/
def probeStep (env : PollEnv) (st : DriverState) : IdResult × DriverState :=
  if st.device_initialized then (IdResult.ok, st)
  else smartups_read_ID false env.probe st

/-- `upsdrv_updateinfo`: lazy identity probe when `device_initialized` is
still 0, then the offset-select write and the block read — each of which,
on a negative return, marks the data stale, clears `device_initialized`
and returns — then the decode/status body. -/
def upsdrv_updateinfo (env : PollEnv) (st0 : DriverState) : PollSignal × DriverState :=
  let pr := probeStep env st0
  if pr.1 = IdResult.fatalExit then (PollSignal.fatalExit, pr.2)
  else if env.writeRet < 0 then
    (PollSignal.dataStale, { pr.2 with device_initialized := false })
  else if env.readRet < 0 then
    (PollSignal.dataStale, { pr.2 with device_initialized := false })
  else pollBody env.buffer pr.2

/-- All four transactions of one `smartups_read_ID` invocation succeeded. -/
def probeOk (p : ProbeEnv) : Bool :=
  p.selectOk && p.vendor.isSome && p.model.isSome && p.firmware.isSome

/-! ## Concrete fixtures used by witnesses and counterexamples -/

/-- A probe environment in which every transaction succeeds (identity
strings `"O"`, `"S"`, `"V"`). -/
def okProbe : ProbeEnv :=
  { selectOk := true, vendor := some [0x4f], model := some [0x53],
    firmware := some [0x56] }

/-- A state in which the identity probe has already completed. -/
def readyState : DriverState :=
  { device_initialized := true, fsd_latch := false, info := {} }

/-- A state with the forced-shutdown latch set while the identity is not
known (the state left behind by a poll I/O error after the latch was
set). -/
def latchedUninitState : DriverState :=
  { device_initialized := false, fsd_latch := true, info := {} }

/-- A successful poll whose telemetry block is all zero except a non-zero
max-capacity word: device-state 0, button-state 0. -/
def quietEnv : PollEnv :=
  { probe := okProbe, writeRet := 1, readRet := 25,
    buffer := fun i => if i = BATTERY_MAX_CAPACITY then 1 else 0 }

/-- A successful poll whose device-state byte (`BATTERY_STATE`) is 9 and
whose button-state byte is 0. -/
def devState9Env : PollEnv :=
  { probe := okProbe, writeRet := 1, readRet := 25,
    buffer := fun i =>
      if i = BATTERY_STATE then 9
      else if i = BATTERY_MAX_CAPACITY then 1 else 0 }

/-- A successful poll whose button-state byte (`BUTTON_STATE`) is 9. -/
def button9Env : PollEnv :=
  { probe := okProbe, writeRet := 1, readRet := 25,
    buffer := fun i =>
      if i = BUTTON_STATE then 9
      else if i = BATTERY_MAX_CAPACITY then 1 else 0 }

/-- A successful poll whose button-state byte is 2 (acknowledgment). -/
def button2Env : PollEnv :=
  { probe := okProbe, writeRet := 1, readRet := 25,
    buffer := fun i =>
      if i = BUTTON_STATE then 2
      else if i = BATTERY_MAX_CAPACITY then 1 else 0 }

/-- A poll whose offset-select write fails (`write` returns −1). -/
def writeFailEnv : PollEnv :=
  { probe := okProbe, writeRet := -1, readRet := 25, buffer := fun _ => 0 }

/-- A poll whose block read succeeds but delivers an all-zero block: the
max-capacity word is 0. -/
def zeroBlockEnv : PollEnv :=
  { probe := okProbe, writeRet := 1, readRet := 25, buffer := fun _ => 0 }

/-- A poll whose lazy probe reads the vendor string successfully and then
fails on the model string. -/
def vendorOnlyEnv : PollEnv :=
  { probe := { selectOk := true, vendor := some [0x4f], model := none,
               firmware := none },
    writeRet := 1, readRet := 25,
    buffer := fun i => if i = BATTERY_MAX_CAPACITY then 1 else 0 }

/-- A poll whose lazy probe reads the vendor and model strings
successfully and then fails on the firmware string. -/
def firmwareFailEnv : PollEnv :=
  { probe := { selectOk := true, vendor := some [0x4f], model := some [0x53],
               firmware := none },
    writeRet := 1, readRet := 25,
    buffer := fun i => if i = BATTERY_MAX_CAPACITY then 1 else 0 }

/-- The raw bytes of the vendor short-code `"Openelec"`. -/
def openelecBytes : List Nat := [0x4f, 0x70, 0x65, 0x6e, 0x65, 0x6c, 0x65, 0x63]

/-- A fully successful probe whose vendor string is `"Openelec"`. -/
def openelecProbe : ProbeEnv :=
  { selectOk := true, vendor := some openelecBytes, model := some [0x53],
    firmware := some [0x56] }

/-- A state with the latch set and the identity already known. -/
def latchedReadyState : DriverState :=
  { device_initialized := true, fsd_latch := true, info := {} }

/-! ## Helper lemmas -/

theorem byteAt_lt (buf : Nat → Nat) (i : Nat) : byteAt buf i < 256 :=
  Nat.mod_lt _ (by norm_num)

theorem lor_shift8 (lo hi : Nat) (h : lo < 256) : lo ||| (hi <<< 8) = 256 * hi + lo := by
  rw [Nat.shiftLeft_eq, Nat.lor_comm, Nat.mul_comm hi (2 ^ 8)]
  exact (Nat.mul_add_lt_is_or (by norm_num at h ⊢; omega) hi).symm

theorem read16_eq (buf : Nat → Nat) (off : Nat) :
    read16 buf off = 256 * byteAt buf (off + 1) + byteAt buf off :=
  lor_shift8 _ _ (byteAt_lt buf off)

theorem read16_lt (buf : Nat → Nat) (off : Nat) : read16 buf off < 65536 := by
  rw [read16_eq]
  have h1 := byteAt_lt buf off
  have h2 := byteAt_lt buf (off + 1)
  omega

theorem and_bit15 (r : Nat) (h : r < 65536) :
    (r &&& (1 <<< 15) ≠ 0) ↔ 32768 ≤ r := by
  have h15 : (1 <<< 15 : Nat) = 2 ^ 15 := Nat.one_shiftLeft 15
  rw [h15, Nat.and_two_pow, Nat.testBit_to_div_mod]
  rcases Nat.lt_or_ge r 32768 with hlt | hge
  · have : r / 2 ^ 15 = 0 := Nat.div_eq_of_lt (by norm_num; omega)
    simp [this]
    omega
  · have : r / 2 ^ 15 = 1 := by
      have hlow : 1 ≤ r / 2 ^ 15 := (Nat.le_div_iff_mul_le (by norm_num)).mpr (by norm_num; omega)
      have hhigh : r / 2 ^ 15 < 2 := Nat.div_lt_of_lt_mul (by norm_num; omega)
      omega
    simp [this]
    omega

theorem latchStep_eq_false (button : Nat) (latch : Bool)
    (h : latchStep button latch = false) :
    latch = false ∨ button = 1 ∨ button = 2 ∨ button = 3 := by
  unfold latchStep at h
  by_cases hc : button = 1 ∨ button = 2 ∨ button = 3
  · right; exact hc
  · left
    simp only [hc, if_false] at h
    by_cases hs : button = 9 ∨ button = 10
    · simp [hs] at h
    · simpa [hs] using h

theorem latchStep_set (button : Nat) (latch : Bool)
    (h : button = 9 ∨ button = 10) : latchStep button latch = true := by
  unfold latchStep
  rcases h with h | h <;> simp [h]

theorem probe_no_fatal (p : ProbeEnv) (st : DriverState) (hsel : p.selectOk = true) :
    (smartups_read_ID false p st).1 ≠ IdResult.fatalExit := by
  obtain ⟨sel, ven, mod, fw⟩ := p
  simp only at hsel
  subst hsel
  rcases ven with _ | v <;> rcases mod with _ | m <;> rcases fw with _ | w <;>
    simp [smartups_read_ID]

theorem probe_mfr (f : Bool) (p : ProbeEnv) (st : DriverState) (bs : List Nat)
    (hsel : p.selectOk = true) (hv : p.vendor = some bs) :
    (smartups_read_ID f p st).2.info.mfr = some (normalizeVendor (cstring bs)) := by
  obtain ⟨sel, ven, mod, fw⟩ := p
  simp only at hsel hv
  subst hsel hv
  rcases mod with _ | m <;> rcases fw with _ | w <;> rcases f <;>
    simp [smartups_read_ID]

theorem probe_latch_cases (f : Bool) (p : ProbeEnv) (st : DriverState) :
    (smartups_read_ID f p st).2.fsd_latch = st.fsd_latch ∨ probeOk p = true := by
  obtain ⟨sel, ven, mod, fw⟩ := p
  rcases sel <;> rcases ven with _ | v <;> rcases mod with _ | m <;>
    rcases fw with _ | w <;> rcases f <;> simp [smartups_read_ID, probeOk]

/-- An aborted lazy probe — any of its reads after a successful vendor
read failing, or the vendor read itself failing — leaves
`device_initialized` unchanged: only the full-success path sets it. -/
theorem probe_aborted_initialized (p : ProbeEnv) (st : DriverState)
    (hm : p.model = none ∨ p.firmware = none) :
    (smartups_read_ID false p st).2.device_initialized = st.device_initialized := by
  obtain ⟨sel, ven, mod, fw⟩ := p
  simp only at hm
  rcases sel <;> rcases ven with _ | v <;> rcases mod with _ | m <;>
    rcases fw with _ | w <;> simp_all [smartups_read_ID]

theorem probeStep_initialized (env : PollEnv) (st : DriverState)
    (h : st.device_initialized = true) : probeStep env st = (IdResult.ok, st) := by
  simp [probeStep, h]

theorem probeStep_no_fatal (env : PollEnv) (st : DriverState)
    (h : st.device_initialized = true ∨ env.probe.selectOk = true) :
    (probeStep env st).1 ≠ IdResult.fatalExit := by
  by_cases hinit : st.device_initialized
  · simp [probeStep, hinit]
  · rcases h with h | h
    · exact absurd h hinit
    · simp only [probeStep, hinit, if_false]
      exact probe_no_fatal env.probe st h

theorem probeStep_latch_cases (env : PollEnv) (st : DriverState) :
    (probeStep env st).2.fsd_latch = st.fsd_latch
    ∨ (st.device_initialized = false ∧ probeOk env.probe = true) := by
  by_cases hinit : st.device_initialized
  · left
    simp [probeStep, hinit]
  · unfold probeStep
    rw [if_neg hinit]
    rcases probe_latch_cases false env.probe st with h | h
    · exact Or.inl h
    · refine Or.inr ⟨?_, h⟩
      cases h2 : st.device_initialized
      · rfl
      · exact absurd h2 hinit

theorem pollBody_fst (buf : Nat → Nat) (st : DriverState) :
    (pollBody buf st).1
      = (if read16 buf BATTERY_MAX_CAPACITY = 0 then PollSignal.divByZero
         else PollSignal.dataOk) := by
  by_cases hz : read16 buf BATTERY_MAX_CAPACITY = 0 <;> simp [pollBody, hz]

theorem pollBody_latch_cases (buf : Nat → Nat) (st : DriverState) :
    (pollBody buf st).2.fsd_latch = st.fsd_latch
    ∨ (pollBody buf st).2.fsd_latch
        = latchStep (byteAt buf BUTTON_STATE) st.fsd_latch := by
  by_cases hz : read16 buf BATTERY_MAX_CAPACITY = 0 <;> simp [pollBody, hz]

theorem pollBody_latch_dataOk (buf : Nat → Nat) (st : DriverState)
    (hz : read16 buf BATTERY_MAX_CAPACITY ≠ 0) :
    (pollBody buf st).2.fsd_latch
      = latchStep (byteAt buf BUTTON_STATE) st.fsd_latch := by
  simp [pollBody, hz]

theorem pollBody_mfr (buf : Nat → Nat) (st : DriverState) :
    (pollBody buf st).2.info.mfr = st.info.mfr := by
  by_cases hz : read16 buf BATTERY_MAX_CAPACITY = 0 <;> simp [pollBody, hz]

theorem pollBody_initialized (buf : Nat → Nat) (st : DriverState) :
    (pollBody buf st).2.device_initialized = st.device_initialized := by
  by_cases hz : read16 buf BATTERY_MAX_CAPACITY = 0 <;> simp [pollBody, hz]

/-- The poll never touches `ups.mfr` after the probe step. -/
theorem poll_mfr_eq_probe (env : PollEnv) (st : DriverState) :
    (upsdrv_updateinfo env st).2.info.mfr = (probeStep env st).2.info.mfr := by
  unfold upsdrv_updateinfo
  by_cases hf : (probeStep env st).1 = IdResult.fatalExit
  · simp [hf]
  · by_cases hw : env.writeRet < 0
    · simp [hf, hw]
    · by_cases hr0 : env.readRet < 0
      · simp [hf, hw, hr0]
      · simp [hf, hw, hr0, pollBody_mfr]

/-- The poll's final latch value is either the probe step's latch value
(error paths and the division-by-zero abort) or the latch update applied
to it (completed polls). -/
theorem poll_latch_cases (env : PollEnv) (st : DriverState) :
    (upsdrv_updateinfo env st).2.fsd_latch = (probeStep env st).2.fsd_latch
    ∨ (upsdrv_updateinfo env st).2.fsd_latch
        = latchStep (byteAt env.buffer BUTTON_STATE) (probeStep env st).2.fsd_latch := by
  unfold upsdrv_updateinfo
  by_cases hf : (probeStep env st).1 = IdResult.fatalExit
  · simp [hf]
  · by_cases hw : env.writeRet < 0
    · simp [hf, hw]
    · by_cases hr0 : env.readRet < 0
      · simp [hf, hw, hr0]
      · simpa [hf, hw, hr0] using pollBody_latch_cases env.buffer (probeStep env st).2

/-- Any poll entered with `device_initialized = 0` whose probe reads a
vendor string publishes the normalized vendor as `ups.mfr`. -/
theorem poll_reprobes_mfr (env : PollEnv) (st : DriverState) (bs : List Nat)
    (hinit : st.device_initialized = false)
    (hsel : env.probe.selectOk = true) (hv : env.probe.vendor = some bs) :
    (upsdrv_updateinfo env st).2.info.mfr = some (normalizeVendor (cstring bs)) := by
  rw [poll_mfr_eq_probe]
  simp only [probeStep, hinit, if_false]
  exact probe_mfr false env.probe st bs hsel hv

/-! ## Claims -/

/-- Claim C5: for every 16-bit raw battery-current value `r`, if
`r < 32768` the decoded value is magnitude `r` with sign `'+'`, and if
`r ≥ 32768` it is magnitude `65536 - r` with sign `'-'`; in particular
`r = 60000` decodes to magnitude 5536 with sign `'-'` and is formatted
`"-5.536"` (sign, magnitude / 1000, `"."`, magnitude % 1000 as three
digits). -/
theorem c5_signed_current_decode (r : Nat) (h : r < 65536) :
    (r < 32768 → decodeCurrent r = { sign := '+', mag := r })
    ∧ (32768 ≤ r → decodeCurrent r = { sign := '-', mag := 65536 - r })
    ∧ (r = 60000 → decodeCurrent r = { sign := '-', mag := 5536 }
        ∧ formatCurrent (decodeCurrent r) = "-5.536") := by
  refine ⟨?_, ?_, ?_⟩
  · intro hr
    have hb : ¬ (r &&& (1 <<< 15) ≠ 0) := by rw [and_bit15 r h]; omega
    simp only [decodeCurrent]
    rw [if_neg hb]
  · intro hr
    have hb : r &&& (1 <<< 15) ≠ 0 := (and_bit15 r h).mpr hr
    simp only [decodeCurrent]
    rw [if_pos hb]
  · rintro rfl
    exact ⟨by decide, by decide⟩

/-- Witness for C5 at the spec's own example `r = 60000`. -/
theorem c5_signed_current_decode_witness :
    decodeCurrent 60000 = { sign := '-', mag := 5536 }
    ∧ formatCurrent (decodeCurrent 60000) = "-5.536" :=
  (c5_signed_current_decode 60000 (by decide)).2.2 rfl

/-- Claim C6: the device-state → tag table is total over codes 0–7 with
the four disjoint outcomes (0 and 4 → `OL` only; 1–3 → `OL CHRG`;
5 → `OB`; 6–7 → `OB LB`); `OL` and `OB` never appear together; every
code ≥ 8 yields no tags (the switch default only logs). -/
theorem c6_status_table (code : Nat) :
    ((code = 0 ∨ code = 4) → statusTags code = [Tag.OL])
    ∧ ((code = 1 ∨ code = 2 ∨ code = 3) → statusTags code = [Tag.OL, Tag.CHRG])
    ∧ (code = 5 → statusTags code = [Tag.OB])
    ∧ ((code = 6 ∨ code = 7) → statusTags code = [Tag.OB, Tag.LB])
    ∧ (8 ≤ code → statusTags code = [])
    ∧ ¬ (Tag.OL ∈ statusTags code ∧ Tag.OB ∈ statusTags code) := by
  by_cases hlt : code < 8
  · interval_cases code <;> decide
  · have h8 : 8 ≤ code := by omega
    have he : statusTags code = [] := by
      unfold statusTags
      split <;> first | omega | rfl
    refine ⟨?_, ?_, ?_, ?_, ?_, ?_⟩ <;> simp [he] <;> omega

/-- Witness for C6 at codes 0, 6 and 9. -/
theorem c6_status_table_witness :
    statusTags 0 = [Tag.OL] ∧ statusTags 6 = [Tag.OB, Tag.LB]
    ∧ statusTags 9 = [] :=
  ⟨(c6_status_table 0).1 (Or.inl rfl),
   (c6_status_table 6).2.2.2.1 (Or.inl rfl),
   (c6_status_table 9).2.2.2.2.1 (by omega)⟩

/-- Claim C7: building a telemetry block with the 16-bit fields laid out
little-endian at the fixed offsets and decoding it with the poll's field
extraction reproduces exactly the field values (current raw word, voltage,
capacity, runtime, temperature). -/
theorem c7_telemetry_roundtrip (t : Telemetry)
    (hc : t.current < 65536) (hv : t.voltage < 65536)
    (hcap : t.capacity < 65536) (hr : t.runtime < 65536)
    (ht : t.temperature < 256) :
    decodeTelemetry (encodeTelemetry t) = t := by
  obtain ⟨c, v, cap, r, temp⟩ := t
  simp only [Telemetry.mk.injEq] at *
  simp [decodeTelemetry, encodeTelemetry, read16_eq, byteAt,
    BATTERY_CURRENT, BATTERY_VOLTAGE, BATTERY_CAPACITY, BATTERY_TIME,
    BATTERY_TEMPERATURE, Telemetry.mk.injEq]
  refine ⟨?_, ?_, ?_, ?_, ?_⟩ <;> omega

/-- Witness for C7 at a concrete snapshot. -/
theorem c7_telemetry_roundtrip_witness :
    decodeTelemetry (encodeTelemetry
      { current := 60000, voltage := 4400, capacity := 450,
        runtime := 3600, temperature := 25 })
    = { current := 60000, voltage := 4400, capacity := 450,
        runtime := 3600, temperature := 25 } :=
  c7_telemetry_roundtrip _ (by decide) (by decide) (by decide) (by decide)
    (by decide)

/-- Claim C1 as stated is false at this input: a completed poll whose
device-state byte (`BATTERY_STATE`) is 9 and whose button-state byte is 0
ends with `fsd_latch` still false — the latch test reads the button-state
byte, not the device-state byte. -/
theorem c1_device_state_counterexample :
    byteAt devState9Env.buffer BATTERY_STATE = 9
    ∧ byteAt devState9Env.buffer BUTTON_STATE = 0
    ∧ readyState.fsd_latch = false
    ∧ (upsdrv_updateinfo devState9Env readyState).1 = PollSignal.dataOk
    ∧ (upsdrv_updateinfo devState9Env readyState).2.fsd_latch = false :=
  ⟨by decide, by decide, rfl, by decide, by decide⟩

/-- Claim C1 (amended): for every poll that completes (`dstate_dataok`),
if the button-state code of that poll is 9 or 10 then `fsd_latch` is true
at the end of the poll, regardless of the latch's prior value; in
particular repeated polls with button-state 9 keep the latch true. -/
theorem c1_button_state_sets_latch (env : PollEnv) (st : DriverState)
    (hok : (upsdrv_updateinfo env st).1 = PollSignal.dataOk)
    (hb : byteAt env.buffer BUTTON_STATE = 9
          ∨ byteAt env.buffer BUTTON_STATE = 10) :
    (upsdrv_updateinfo env st).2.fsd_latch = true := by
  simp only [upsdrv_updateinfo] at hok ⊢
  by_cases hf : (probeStep env st).1 = IdResult.fatalExit
  · rw [if_pos hf] at hok
    simp at hok
  rw [if_neg hf] at hok ⊢
  by_cases hw : env.writeRet < 0
  · rw [if_pos hw] at hok
    simp at hok
  rw [if_neg hw] at hok ⊢
  by_cases hr0 : env.readRet < 0
  · rw [if_pos hr0] at hok
    simp at hok
  rw [if_neg hr0] at hok ⊢
  rw [pollBody_fst] at hok
  by_cases hz : read16 env.buffer BATTERY_MAX_CAPACITY = 0
  · rw [if_pos hz] at hok
    simp at hok
  · rw [pollBody_latch_dataOk _ _ hz, latchStep_set _ _ hb]

/-- Witness for the amended C1: a completed poll with button-state 9 and
the latch initially clear ends with the latch set. -/
theorem c1_button_state_sets_latch_witness :
    (upsdrv_updateinfo button9Env readyState).2.fsd_latch = true :=
  c1_button_state_sets_latch button9Env readyState (by decide)
    (Or.inl (by decide))

/-- Claim C2 (code bug): on a successfully read block whose max-capacity
word is zero, the poll reaches the charge computation
`100 * battery_capacity / battery_max_capacity` with divisor zero —
undefined behaviour in C — instead of treating max-capacity 0 as an
explicit undefined/error case. -/
theorem c2_charge_division_by_zero :
    read16 zeroBlockEnv.buffer BATTERY_MAX_CAPACITY = 0
    ∧ (upsdrv_updateinfo zeroBlockEnv readyState).1 = PollSignal.divByZero :=
  ⟨by decide, by decide⟩

/-- Claim C3: if the offset-select write or the telemetry block read of a
poll returns an I/O error, the poll signals stale data, resets
`device_initialized` to 0, and does not terminate the process; any later
poll whose probe reads a vendor string re-runs the identity probe and
republishes the vendor rather than reusing cached identity. -/
theorem c3_io_error_recovery (env : PollEnv) (st : DriverState)
    (hnf : st.device_initialized = true ∨ env.probe.selectOk = true)
    (herr : env.writeRet < 0 ∨ env.readRet < 0) :
    (upsdrv_updateinfo env st).1 = PollSignal.dataStale
    ∧ (upsdrv_updateinfo env st).2.device_initialized = false
    ∧ (∀ env2 bs, env2.probe.selectOk = true → env2.probe.vendor = some bs →
        (upsdrv_updateinfo env2 (upsdrv_updateinfo env st).2).2.info.mfr
          = some (normalizeVendor (cstring bs))) := by
  have hf := probeStep_no_fatal env st hnf
  have hstale : upsdrv_updateinfo env st
      = (PollSignal.dataStale,
         { (probeStep env st).2 with device_initialized := false }) := by
    simp only [upsdrv_updateinfo]
    rw [if_neg hf]
    by_cases hw : env.writeRet < 0
    · rw [if_pos hw]
    · rcases herr with h | h
      · exact absurd h hw
      · rw [if_neg hw, if_pos h]
  refine ⟨by rw [hstale], by rw [hstale], ?_⟩
  intro env2 bs hsel2 hv2
  exact poll_reprobes_mfr env2 _ bs (by rw [hstale]) hsel2 hv2

/-- Witness for C3: a poll whose offset-select write returns −1, followed
by a poll with a working probe. -/
theorem c3_io_error_recovery_witness :
    (upsdrv_updateinfo writeFailEnv readyState).1 = PollSignal.dataStale
    ∧ (upsdrv_updateinfo writeFailEnv readyState).2.device_initialized = false
    ∧ (upsdrv_updateinfo quietEnv
        (upsdrv_updateinfo writeFailEnv readyState).2).2.info.mfr
        = some (normalizeVendor (cstring [0x4f])) :=
  ⟨(c3_io_error_recovery writeFailEnv readyState (Or.inl rfl)
      (Or.inl (by decide))).1,
   (c3_io_error_recovery writeFailEnv readyState (Or.inl rfl)
      (Or.inl (by decide))).2.1,
   (c3_io_error_recovery writeFailEnv readyState (Or.inl rfl)
      (Or.inl (by decide))).2.2 quietEnv [0x4f] rfl rfl⟩

/-- Claim C4 as stated is false at this input: with the latch set and the
identity not yet known, a poll whose button-state byte is 0 (no
acknowledgment press) still ends with the latch cleared, because the
successful lazy identity probe executes `fsd_latch = 0`. -/
theorem c4_reprobe_clears_latch_counterexample :
    latchedUninitState.fsd_latch = true
    ∧ byteAt quietEnv.buffer BUTTON_STATE = 0
    ∧ (upsdrv_updateinfo quietEnv latchedUninitState).1 = PollSignal.dataOk
    ∧ (upsdrv_updateinfo quietEnv latchedUninitState).2.fsd_latch = false :=
  ⟨rfl, by decide, by decide, by decide⟩

/-- Claim C4 (amended): within one process lifetime the latch, once set,
is cleared only by a poll whose button-state code is 1, 2 or 3, or by a
successful completion of the identity probe (which resets the latch while
re-initializing). -/
theorem c4_latch_clear_causes (env : PollEnv) (st : DriverState)
    (hset : st.fsd_latch = true)
    (hclr : (upsdrv_updateinfo env st).2.fsd_latch = false) :
    byteAt env.buffer BUTTON_STATE = 1 ∨ byteAt env.buffer BUTTON_STATE = 2
    ∨ byteAt env.buffer BUTTON_STATE = 3
    ∨ (st.device_initialized = false ∧ probeOk env.probe = true) := by
  rcases poll_latch_cases env st with hl | hl
  · rcases probeStep_latch_cases env st with he | hp
    · rw [hl, he, hset] at hclr
      exact absurd hclr (by decide)
    · exact Or.inr (Or.inr (Or.inr hp))
  · rw [hl] at hclr
    rcases latchStep_eq_false _ _ hclr with hpl | hb
    · rcases probeStep_latch_cases env st with he | hp
      · rw [he, hset] at hpl
        exact absurd hpl (by decide)
      · exact Or.inr (Or.inr (Or.inr hp))
    · rcases hb with h | h | h
      · exact Or.inl h
      · exact Or.inr (Or.inl h)
      · exact Or.inr (Or.inr (Or.inl h))

/-- Witness for the amended C4: a poll that clears a set latch with
button-state 2 falls under the acknowledgment-press case. -/
theorem c4_latch_clear_causes_witness :
    byteAt button2Env.buffer BUTTON_STATE = 1
    ∨ byteAt button2Env.buffer BUTTON_STATE = 2
    ∨ byteAt button2Env.buffer BUTTON_STATE = 3
    ∨ (latchedReadyState.device_initialized = false
        ∧ probeOk button2Env.probe = true) :=
  c4_latch_clear_causes button2Env latchedReadyState rfl (by decide)

/-- Claim C8: whenever the probe's vendor read succeeds, the published
manufacturer is the canonical name `"OpenElectrons.com"` exactly when the
vendor string (the received bytes trimmed at their first null) is
`"Openelec"`, and the vendor string itself otherwise. -/
theorem c8_vendor_normalization (f : Bool) (p : ProbeEnv) (st : DriverState)
    (bs : List Nat) (hsel : p.selectOk = true) (hv : p.vendor = some bs) :
    (smartups_read_ID f p st).2.info.mfr = some (normalizeVendor (cstring bs))
    ∧ (cstring bs = "Openelec" →
        (smartups_read_ID f p st).2.info.mfr = some "OpenElectrons.com")
    ∧ (cstring bs ≠ "Openelec" →
        (smartups_read_ID f p st).2.info.mfr = some (cstring bs)) := by
  have hm := probe_mfr f p st bs hsel hv
  refine ⟨hm, fun he => ?_, fun hne => ?_⟩
  · rw [hm]
    unfold normalizeVendor
    rw [if_pos he]
  · rw [hm]
    unfold normalizeVendor
    rw [if_neg hne]

/-- Witness for C8: the raw vendor bytes of `"Openelec"` are published as
`"OpenElectrons.com"`. -/
theorem c8_vendor_normalization_witness :
    (smartups_read_ID true openelecProbe initialState).2.info.mfr
      = some "OpenElectrons.com" :=
  (c8_vendor_normalization true openelecProbe initialState openelecBytes
    rfl rfl).2.1 (by decide)

/-- Claim C9: a poll whose block read returns `0 ≤ n < READ_LEN` bytes (a
short read) is indistinguishable from one returning the full `READ_LEN`
bytes — the byte count is never checked — and (when the write succeeded,
the identity is known and the max-capacity word is non-zero) it still ends
with `dstate_dataok`. -/
theorem c9_short_read_undetected (env : PollEnv) (st : DriverState) (n : Int)
    (h0 : 0 ≤ n) (hn : n < (READ_LEN : Int)) :
    upsdrv_updateinfo { env with readRet := n } st
      = upsdrv_updateinfo { env with readRet := (READ_LEN : Int) } st
    ∧ (st.device_initialized = true → 0 ≤ env.writeRet →
        read16 env.buffer BATTERY_MAX_CAPACITY ≠ 0 →
        (upsdrv_updateinfo { env with readRet := n } st).1
          = PollSignal.dataOk) := by
  have hn0 : ¬ n < 0 := by omega
  have hL : ¬ ((READ_LEN : Int) < 0) := by decide
  constructor
  · simp [upsdrv_updateinfo, probeStep, hn0, hL]
  · intro hinit hwp hz
    have hw0 : ¬ env.writeRet < 0 := by omega
    simp [upsdrv_updateinfo, probeStep, hinit, hw0, hn0, pollBody_fst, hz]

/-- Witness for C9: a 3-byte short read behaves exactly like a full
25-byte read and still ends with data OK. -/
theorem c9_short_read_undetected_witness :
    (upsdrv_updateinfo { quietEnv with readRet := 3 } readyState
      = upsdrv_updateinfo { quietEnv with readRet := (READ_LEN : Int) } readyState)
    ∧ (upsdrv_updateinfo { quietEnv with readRet := 3 } readyState).1
        = PollSignal.dataOk :=
  ⟨(c9_short_read_undetected quietEnv readyState 3 (by decide) (by decide)).1,
   (c9_short_read_undetected quietEnv readyState 3 (by decide) (by decide)).2
     rfl (by decide) (by decide)⟩

/-- Claim C10: in the lazy (non-fatal) mode, a probe whose vendor read
succeeds but whose later model read or firmware read fails leaves the
normalized vendor published while `device_initialized` stays 0, and the
next poll re-runs the whole probe — republishing the vendor from the new
read — instead of reusing the cached identity. -/
theorem c10_partial_probe_not_atomic (env : PollEnv) (st : DriverState)
    (bs : List Nat)
    (hinit : st.device_initialized = false)
    (hsel : env.probe.selectOk = true)
    (hv : env.probe.vendor = some bs)
    (hm : env.probe.model = none ∨ env.probe.firmware = none) :
    (upsdrv_updateinfo env st).2.info.mfr = some (normalizeVendor (cstring bs))
    ∧ (upsdrv_updateinfo env st).2.device_initialized = false
    ∧ (∀ env2 bs2, env2.probe.selectOk = true → env2.probe.vendor = some bs2 →
        (upsdrv_updateinfo env2 (upsdrv_updateinfo env st).2).2.info.mfr
          = some (normalizeVendor (cstring bs2))) := by
  have h1 := poll_reprobes_mfr env st bs hinit hsel hv
  have hpi : (probeStep env st).2.device_initialized = false := by
    simp [probeStep, hinit, probe_aborted_initialized env.probe st hm]
  have h2 : (upsdrv_updateinfo env st).2.device_initialized = false := by
    simp only [upsdrv_updateinfo]
    by_cases hf : (probeStep env st).1 = IdResult.fatalExit
    · simp [hf, hpi]
    · by_cases hw : env.writeRet < 0
      · simp [hf, hw]
      · by_cases hr0 : env.readRet < 0
        · simp [hf, hw, hr0]
        · simp [hf, hw, hr0, pollBody_initialized, hpi]
  exact ⟨h1, h2, fun env2 bs2 hsel2 hv2 =>
    poll_reprobes_mfr env2 _ bs2 h2 hsel2 hv2⟩

/-- Witness for C10, exercising both failure points: a probe failing on
the model read and a probe failing on the firmware read each leave the
vendor published and the flag 0, and the next poll with a working probe
republishes the vendor it reads. -/
theorem c10_partial_probe_not_atomic_witness :
    (upsdrv_updateinfo vendorOnlyEnv initialState).2.info.mfr
      = some (normalizeVendor (cstring [0x4f]))
    ∧ (upsdrv_updateinfo vendorOnlyEnv initialState).2.device_initialized = false
    ∧ (upsdrv_updateinfo firmwareFailEnv initialState).2.info.mfr
        = some (normalizeVendor (cstring [0x4f]))
    ∧ (upsdrv_updateinfo firmwareFailEnv initialState).2.device_initialized = false
    ∧ (upsdrv_updateinfo quietEnv
        (upsdrv_updateinfo firmwareFailEnv initialState).2).2.info.mfr
        = some (normalizeVendor (cstring [0x4f])) :=
  ⟨(c10_partial_probe_not_atomic vendorOnlyEnv initialState [0x4f]
      rfl rfl rfl (Or.inl rfl)).1,
   (c10_partial_probe_not_atomic vendorOnlyEnv initialState [0x4f]
      rfl rfl rfl (Or.inl rfl)).2.1,
   (c10_partial_probe_not_atomic firmwareFailEnv initialState [0x4f]
      rfl rfl rfl (Or.inr rfl)).1,
   (c10_partial_probe_not_atomic firmwareFailEnv initialState [0x4f]
      rfl rfl rfl (Or.inr rfl)).2.1,
   (c10_partial_probe_not_atomic firmwareFailEnv initialState [0x4f]
      rfl rfl rfl (Or.inr rfl)).2.2 quietEnv [0x4f] rfl rfl⟩

end OESmartups
